import Mathlib

/-!
Verification development for the LovelyAIQRcodeDecoder_rs repository.

This file gives a shallow embedding, in Lean 4, of the decoding pipeline of
the repository: the data model (`QRPosition`, `QRCodeResult`, configuration
records), the brute-force parameter grid and its image-transform engine
(`src/brute_force_decoder.rs`), the tiered WeChat/generic decode cascade
(`src/qr_decoder.rs`, `src/wechat_qr_decoder.rs`), the enhanced transform
search (`src/enhanced_processor.rs`), and the batch coordinator
(`src/batch_processor.rs` together with the single-file driver in
`src/main.rs`).

Modelling conventions:
* Rust `f32`/`f64` values are modelled as `ℚ`.  Every claim settled here
  only depends on comparisons of dyadic/decimal constants that behave the
  same under IEEE arithmetic and exact rational arithmetic (the additive
  confidence increments never cross the compared thresholds within the
  rounding error of `f32`), so the rational model is faithful for these
  claims.
* OpenCV `Mat` images are opaque to the decoding logic; where only control
  flow matters the result of an OpenCV backend call is an oracle argument,
  and where the applied image operations matter (`apply_transform`) the
  image is modelled by the trace of OpenCV operations applied to it.
* Rust `Result` is `Except String`, `Option` is `Option`.
-/

/-! ## Core data model (`src/types.rs`) -/

/-- Model of `types.rs` `QRPosition`: bounding box of a detected code, plus the
optional corner list.  Coordinates `x, y, width, height` are `i32` in the
source; the decoding logic never overflows them, so they are `ℤ` here. -/
structure QRPosition where
  x : ℤ
  y : ℤ
  width : ℤ
  height : ℤ
  corners : Option (List (ℚ × ℚ))
deriving DecidableEq, Repr

/-- Source `QRPosition::new` (corners start out as `None`). -/
def QRPosition.new (x y width height : ℤ) : QRPosition :=
  ⟨x, y, width, height, none⟩

/-- Source `QRPosition::with_corners`. -/
def QRPosition.with_corners (p : QRPosition) (cs : List (ℚ × ℚ)) : QRPosition :=
  { p with corners := some cs }

/-- Model of `types.rs` `QRCodeResult` (the `timestamp` and `raw_bytes` fields are
wall-clock / unused metadata and are not part of the model). -/
structure QRCodeResult where
  content : String
  position : QRPosition
  confidence : ℚ
  qr_type : String
deriving DecidableEq, Repr

/-- Model of `types.rs` `QrResult`: the simplified result record used by the batch
pipeline. -/
structure QrResult where
  content : String
  points : Option (List (ℚ × ℚ))
deriving DecidableEq, Repr

/-- Model of `types.rs` `ProcessingConfig`, restricted to the fields the decoding
logic reads (paths and output formatting options do not influence any
claim settled here). -/
structure ProcessingConfig where
  preprocess : Bool
  verbose : Bool
  show_position : Bool
  min_confidence : ℚ
  brute_force : Bool
  expected_count : ℕ
  randomize : Bool
  invert : Bool
deriving DecidableEq, Repr

/-- Source `ProcessingConfig::default` (field values from `types.rs`). -/
def ProcessingConfig.default : ProcessingConfig :=
  { preprocess := true
    verbose := false
    show_position := false
    min_confidence := 0
    brute_force := false
    expected_count := 1
    randomize := false
    invert := false }

/-! ## Brute-force decoder (`src/brute_force_decoder.rs`) -/

/-- Model of `BruteForceConfig` from `brute_force_decoder.rs`. -/
structure BruteForceConfig where
  contrast_options : List ℚ
  brightness_options : List ℤ
  blur_options : List ℤ
  scale_options : List ℚ
  duplicate_threshold : ℚ
  randomize : Bool
deriving DecidableEq, Repr

/-- Source `impl Default for BruteForceConfig` (`brute_force_decoder.rs` lines
36-47). -/
def BruteForceConfig.default : BruteForceConfig :=
  { contrast_options := [2, 1, 3]
    brightness_options := [-75, 75, -50, -25, -10, 0, 25, 50]
    blur_options := [-7, -3, 7, 3, -1, 5, 9, 11, 13, 15, 17, 19, 21, 23, 25]
    scale_options := [1/5, 1/2, 7/10, 9/10, 13/10, 2]
    duplicate_threshold := 10
    randomize := false }

/-- Model of `TransformParams` from `brute_force_decoder.rs`. -/
structure TransformParams where
  contrast : ℚ
  brightness : ℤ
  blur : ℤ
  scale : ℚ
  grayscale : Bool
  binary : Bool
deriving DecidableEq, Repr

/-- Model of `BruteForceDecoder::is_duplicate` (`brute_force_decoder.rs` lines
122-136).  The source computes
`distance = sqrt(dx*dx + dy*dy)` over `f64` with the differences of the
`i32` bounding-box origin coordinates `position.x`, `position.y`, and
compares `distance < 50.0`.  For integer `dx`, `dy` the comparison
`sqrt (dx^2 + dy^2) < 50` is equivalent to `dx^2 + dy^2 < 2500` (the square
root is monotone, `50^2 = 2500`, and `f64` square root of an integer below
2500 never rounds up to 50), so the model compares squared distances.
The `cfg` argument models the `&self` receiver: the source reads the
hard-coded constant `DISTANCE_THRESHOLD = 50.0` and never consults
`self.config.duplicate_threshold`. -/
def is_duplicate (cfg : BruteForceConfig) (new_result : QRCodeResult)
    (existing_results : List QRCodeResult) : Bool :=
  let _ := cfg
  existing_results.any fun existing =>
    let dx : ℤ := new_result.position.x - existing.position.x
    let dy : ℤ := new_result.position.y - existing.position.y
    decide (dx * dx + dy * dy < 2500)

/-- Contrast options hard-coded inside
`BruteForceDecoder::generate_param_combinations` (line 143); the method
ignores `self.config`. -/
def bf_contrast_options : List ℚ := [2, 1, 3]

/-- Brightness options hard-coded inside `generate_param_combinations`
(line 144). -/
def bf_brightness_options : List ℤ := [-75, 75, -50, -25, -10, 0, 25, 50]

/-- Blur options hard-coded inside `generate_param_combinations`
(line 145). -/
def bf_blur_options : List ℤ := [-7, -3, 7, 3, -1, 5, 9, 11, 13, 15, 17, 19, 21, 23, 25]

/-- Scale options hard-coded inside `generate_param_combinations`
(line 146): `[0.2, 0.5, 0.7, 0.9, 1.3, 2.0]`. -/
def bf_scale_options : List ℚ := [1/5, 1/2, 7/10, 9/10, 13/10, 2]

/-- Model of `BruteForceDecoder::generate_param_combinations`
(`brute_force_decoder.rs` lines 139-170): the nested `for` loops over
scale, grayscale (fixed `[true]`), contrast, brightness, blur and binary,
pushing a `TransformParams` for each combination, are the corresponding
nested `flatMap`s in the same order. -/
def generate_param_combinations : List TransformParams :=
  bf_scale_options.flatMap fun scale =>
    [true].flatMap fun grayscale =>
      bf_contrast_options.flatMap fun contrast =>
        bf_brightness_options.flatMap fun brightness =>
          bf_blur_options.flatMap fun blur =>
            [true, false].map fun binary =>
              { contrast := contrast
                brightness := brightness
                blur := blur
                scale := scale
                grayscale := grayscale
                binary := binary }

/-- One OpenCV image operation issued by
`BruteForceDecoder::apply_transform`.  The image itself is opaque; the
transform engine is modelled by the sequence of operations it applies. -/
inductive ImgOp where
  | resize (scale : ℚ)
  | convertTo (contrast : ℚ) (brightness : ℤ)
  | gaussianBlur (ksize : ℤ)
  | cvtGray
  | thresholdOtsu
  | bitwiseNot
deriving DecidableEq, Repr

/-- Model of `BruteForceDecoder::apply_transform` (`brute_force_decoder.rs` lines
173-237), as the ordered trace of OpenCV operations applied to the input
image: optional `resize` when `scale != 1.0`, unconditional `convert_to`
(contrast/brightness), `gaussian_blur` with kernel size `blur.abs()` when
`blur != 0 && blur.abs() > 1` (the kernel size is passed to OpenCV
unchanged), optional `cvt_color` to gray, optional Otsu `threshold`,
optional `bitwise_not`. -/
def apply_transform (params : TransformParams) (invert : Bool) : List ImgOp :=
  (if params.scale ≠ 1 then [ImgOp.resize params.scale] else [])
    ++ [ImgOp.convertTo params.contrast params.brightness]
    ++ (if params.blur ≠ 0 ∧ 1 < params.blur.natAbs then
          [ImgOp.gaussianBlur (params.blur.natAbs : ℤ)] else [])
    ++ (if params.grayscale then [ImgOp.cvtGray] else [])
    ++ (if params.binary then [ImgOp.thresholdOtsu] else [])
    ++ (if invert then [ImgOp.bitwiseNot] else [])

/-- Rank of an operation kind in the fixed pipeline order
scale → brightness/contrast → blur → grayscale → binarize → invert. -/
def ImgOp.rank : ImgOp → ℕ
  | .resize _ => 0
  | .convertTo _ _ => 1
  | .gaussianBlur _ => 2
  | .cvtGray => 3
  | .thresholdOtsu => 4
  | .bitwiseNot => 5

/-- Model of `EnhancedImageProcessor::apply_gaussian_blur`
(`enhanced_processor.rs` lines 276-285) coerces an even kernel size to the
next odd value before calling OpenCV; this is the kernel size it actually
uses.  (The brute-force engine does not perform this coercion.) -/
def enhanced_blur_kernel (kernel_size : ℤ) : ℤ :=
  if kernel_size % 2 = 0 then kernel_size + 1 else kernel_size

/-! ## Enhanced transform search (`src/enhanced_processor.rs`) -/

/-- Model of `TransformType` from `enhanced_processor.rs` (ℚ for the `f64`
arguments). -/
inductive TransformType where
  | original
  | brightness (value : ℤ)
  | contrast (value : ℚ)
  | gamma (value : ℚ)
  | gaussianBlurT (kernel : ℤ)
  | bilateralFilter
  | medianBlur (kernel : ℤ)
  | morphOpen
  | morphClose
  | sharpen
  | brightnessContrast (brightness : ℤ) (contrast : ℚ)
deriving DecidableEq, Repr

/-- Model of `EnhancedImageProcessor::get_transform_sequence`
(`enhanced_processor.rs` lines 153-211): the fixed, hand-ordered list of
36 transforms, in source order. -/
def get_transform_sequence : List TransformType :=
  [ TransformType.original,
    TransformType.brightness 20,
    TransformType.brightness (-20),
    TransformType.contrast (6/5),
    TransformType.contrast (4/5),
    TransformType.gamma (4/5),
    TransformType.gamma (6/5),
    TransformType.brightnessContrast 15 (13/10),
    TransformType.brightnessContrast (-15) (13/10),
    TransformType.brightnessContrast 25 (7/10),
    TransformType.brightnessContrast (-25) (7/10),
    TransformType.brightness 40,
    TransformType.brightness (-40),
    TransformType.contrast (3/2),
    TransformType.contrast (3/5),
    TransformType.gamma (1/2),
    TransformType.gamma (3/2),
    TransformType.bilateralFilter,
    TransformType.medianBlur 3,
    TransformType.gaussianBlurT 3,
    TransformType.medianBlur 5,
    TransformType.sharpen,
    TransformType.morphOpen,
    TransformType.morphClose,
    TransformType.brightness 60,
    TransformType.brightness (-60),
    TransformType.contrast 2,
    TransformType.contrast (2/5),
    TransformType.gamma (3/10),
    TransformType.gamma (11/5),
    TransformType.brightnessContrast 50 (9/5),
    TransformType.brightnessContrast (-50) (9/5),
    TransformType.brightnessContrast 40 (1/2),
    TransformType.brightnessContrast (-40) (1/2),
    TransformType.gaussianBlurT 5,
    TransformType.gaussianBlurT 7 ]

/-- Outcome of one loop iteration of
`EnhancedImageProcessor::decode_with_transforms` for a given transform:
the transform application can fail (`Err` from `apply_transform`), the
decode can fail (`Err` from `QRDecoder::decode_qr_codes`), or the decode
returns a result list.  The transformed image and the fresh `QRDecoder`
are deterministic functions of the input image and the transform, so the
pair (image, OpenCV behaviour) is abstracted into one oracle
`TransformType → DecodeAttempt`. -/
inductive DecodeAttempt where
  | transformErr
  | decodeErr
  | ok (results : List QRCodeResult)
deriving DecidableEq, Repr

/-- Whether a `DecodeAttempt` is a hit: a successful decode with a
non-empty result list (the condition `Ok(results) if !results.is_empty()`
of the first match arm in `decode_with_transforms`). -/
def DecodeAttempt.isHit : DecodeAttempt → Bool
  | .ok results => !results.isEmpty
  | _ => false

/-- The loop body of `EnhancedImageProcessor::decode_with_transforms`
(`enhanced_processor.rs` lines 99-148) over an explicit transform list.
Returns the result list together with the list of transforms that were
actually attempted (each attempted transform is applied to the image and,
unless the transform itself failed, decoded once).  A hit returns
immediately; transform errors and decode errors or empty decodes fall
through to the next transform; an exhausted list returns `Ok(vec![])`. -/
def decode_loop (f : TransformType → DecodeAttempt) :
    List TransformType → List QRCodeResult × List TransformType
  | [] => ([], [])
  | t :: rest =>
    match f t with
    | .ok results =>
      if results.isEmpty then
        let p := decode_loop f rest
        (p.1, t :: p.2)
      else
        (results, [t])
    | _ =>
      let p := decode_loop f rest
      (p.1, t :: p.2)

/-- Model of `EnhancedImageProcessor::decode_with_transforms`: runs the loop over
`get_transform_sequence`.  First component: the returned result list;
second component: the transforms attempted, in order. -/
def decode_with_transforms (f : TransformType → DecodeAttempt) :
    List QRCodeResult × List TransformType :=
  decode_loop f get_transform_sequence

/-! ## WeChat backend (`src/wechat_qr_decoder.rs`) -/

/-- The largest finite `f32` value, `(2^24 - 1) * 2^104`, used as the
initial accumulator of the min/max folds in
`calculate_position_from_corners` / `calculate_area_from_corners`
(`f32::MAX` in the source). -/
def f32MAX : ℚ := (2 ^ 24 - 1) * 2 ^ 104

/-- Minimum of the x coordinates, folded from `f32::MAX` exactly as the
source loop does. -/
def fold_min_x (corners : List (ℚ × ℚ)) : ℚ :=
  corners.foldl (fun m p => min m p.1) f32MAX

/-- Maximum of the x coordinates, folded from `f32::MIN = -f32::MAX`. -/
def fold_max_x (corners : List (ℚ × ℚ)) : ℚ :=
  corners.foldl (fun m p => max m p.1) (-f32MAX)

/-- Minimum of the y coordinates, folded from `f32::MAX`. -/
def fold_min_y (corners : List (ℚ × ℚ)) : ℚ :=
  corners.foldl (fun m p => min m p.2) f32MAX

/-- Maximum of the y coordinates, folded from `f32::MIN`. -/
def fold_max_y (corners : List (ℚ × ℚ)) : ℚ :=
  corners.foldl (fun m p => max m p.2) (-f32MAX)

/-- The `as i32` cast applied to the `f32` box coordinates: truncation
toward zero. -/
def ratTruncToInt (q : ℚ) : ℤ :=
  Int.tdiv q.num (q.den : ℤ)

/-- Model of `calculate_area_from_corners` (identical in `wechat_qr_decoder.rs`
lines 261-279 and `qr_decoder.rs` lines 406-424): 0 when fewer than 4
corners, otherwise the bounding-box area. -/
def calculate_area_from_corners (corners : List (ℚ × ℚ)) : ℚ :=
  if corners.length < 4 then 0
  else (fold_max_x corners - fold_min_x corners) *
       (fold_max_y corners - fold_min_y corners)

/-- Model of `calculate_position_from_corners` (identical in `wechat_qr_decoder.rs`
lines 206-231 and `qr_decoder.rs` lines 282-307): errors when fewer than
4 corners, otherwise the bounding box with the corner list attached. -/
def calculate_position_from_corners (corners : List (ℚ × ℚ)) :
    Except String QRPosition :=
  if corners.length < 4 then .error "corner count below 4"
  else .ok ((QRPosition.new
    (ratTruncToInt (fold_min_x corners))
    (ratTruncToInt (fold_min_y corners))
    (ratTruncToInt (fold_max_x corners - fold_min_x corners))
    (ratTruncToInt (fold_max_y corners - fold_min_y corners))).with_corners corners)

/-- Model of `WeChatQRDecoder::calculate_confidence` (`wechat_qr_decoder.rs` lines
234-258): base 0.8, +0.1 for ≥4 corners, +0.05 for area > 100, +0.05 for
area > 1000, +0.05 for an image larger than 200×200, clamped by
`min(…, 1.0)`. -/
def wechat_calculate_confidence (corners : List (ℚ × ℚ))
    (imgWidth imgHeight : ℤ) : ℚ :=
  let confidence : ℚ := 8/10
  let confidence := if 4 ≤ corners.length then confidence + 1/10 else confidence
  let area := calculate_area_from_corners corners
  let confidence := if 100 < area then confidence + 1/20 else confidence
  let confidence := if 1000 < area then confidence + 1/20 else confidence
  let confidence :=
    if 200 < imgWidth ∧ 200 < imgHeight then confidence + 1/20 else confidence
  min confidence 1

/-- One raw WeChat detection, as handed to the result-construction loop of
`WeChatQRDecoder::decode_qr_codes`: the decoded string of
`detector.detect_and_decode` and the corner points extracted from the
corresponding points `Mat` by `extract_corner_points`. -/
structure RawDet where
  content : String
  corners : List (ℚ × ℚ)
deriving DecidableEq, Repr

/-- The per-detection loop of `WeChatQRDecoder::decode_qr_codes`
(`wechat_qr_decoder.rs` lines 114-147): detections with empty content are
skipped; `calculate_position_from_corners` errors (fewer than 4 corners)
abort the whole call via `?`; otherwise a `WECHAT_QR_CODE` result is
built with the computed confidence. -/
def wechat_build_results (cfg : ProcessingConfig) (imgWidth imgHeight : ℤ) :
    List RawDet → Except String (List QRCodeResult)
  | [] => .ok []
  | det :: rest =>
    if det.content = "" then
      wechat_build_results cfg imgWidth imgHeight rest
    else
      match calculate_position_from_corners det.corners with
      | .error e => .error e
      | .ok position =>
        match wechat_build_results cfg imgWidth imgHeight rest with
        | .error e => .error e
        | .ok results =>
          .ok ({ content := det.content
                 position := position
                 confidence := wechat_calculate_confidence det.corners imgWidth imgHeight
                 qr_type := "WECHAT_QR_CODE" } :: results)

/-- Model of `WeChatQRDecoder::decode_qr_codes` (`wechat_qr_decoder.rs` lines
86-168).  `raw` is the outcome of the OpenCV call
`detector.detect_and_decode` (decoded strings plus extracted corners;
`.error` when the detector call itself fails).  An empty raw detection
list returns `Ok(vec![])`; otherwise results are built and then filtered
by `confidence >= min_confidence` — note that this filter runs inside the
WeChat backend, before the caller sees the result. -/
def wechat_decode_qr_codes (cfg : ProcessingConfig)
    (raw : Except String (List RawDet)) (imgWidth imgHeight : ℤ) :
    Except String (List QRCodeResult) :=
  match raw with
  | .error e => .error e
  | .ok dets =>
    if dets.isEmpty then .ok []
    else
      match wechat_build_results cfg imgWidth imgHeight dets with
      | .error e => .error e
      | .ok results =>
        .ok (results.filter fun r => cfg.min_confidence ≤ r.confidence)

/-! ## Generic decoder and tiered cascade (`src/qr_decoder.rs`) -/

/-- The straightened QR sub-image returned by the OpenCV detector, as seen
by `QRDecoder::calculate_confidence`: emptiness and pixel dimensions. -/
structure StraightQR where
  isEmptyMat : Bool
  width : ℤ
  height : ℤ
deriving DecidableEq, Repr

/-- Model of `calculate_qr_area` (`qr_decoder.rs` lines 382-403): 0 for fewer than
4 points, otherwise the bounding-box area (same sentinel folds as the
corners version). -/
def calculate_qr_area (points : List (ℚ × ℚ)) : ℚ :=
  if points.length < 4 then 0
  else (fold_max_x points - fold_min_x points) *
       (fold_max_y points - fold_min_y points)

/-- Model of `QRDecoder::calculate_confidence` (`qr_decoder.rs` lines 326-351):
base 0.5, +0.2 for ≥4 points, +0.2 for a non-empty straightened image
larger than 20×20, +0.1 for area > 100 (only checked when ≥4 points),
clamped by `min(…, 1.0)`. -/
def calculate_confidence (points : List (ℚ × ℚ)) (straight : StraightQR) : ℚ :=
  let confidence : ℚ := 1/2
  let confidence := if 4 ≤ points.length then confidence + 1/5 else confidence
  let confidence :=
    if straight.isEmptyMat = false ∧ 20 < straight.width ∧ 20 < straight.height then
      confidence + 1/5
    else confidence
  let confidence :=
    if 4 ≤ points.length then
      (if 100 < calculate_qr_area points then confidence + 1/10 else confidence)
    else confidence
  min confidence 1

/-- Model of `QRDecoder::calculate_confidence_from_corners` (`qr_decoder.rs` lines
354-379): same shape as `calculate_confidence`, over an extracted corner
list and `calculate_area_from_corners`. -/
def calculate_confidence_from_corners (corners : List (ℚ × ℚ))
    (straight : StraightQR) : ℚ :=
  let confidence : ℚ := 1/2
  let confidence := if 4 ≤ corners.length then confidence + 1/5 else confidence
  let confidence :=
    if straight.isEmptyMat = false ∧ 20 < straight.width ∧ 20 < straight.height then
      confidence + 1/5
    else confidence
  let confidence :=
    if 4 ≤ corners.length then
      (if 100 < calculate_area_from_corners corners then confidence + 1/10 else confidence)
    else confidence
  min confidence 1

/-- Outcome of `QRDecoder::decode_qr_codes` together with whether the
generic (multi/single OpenCV) fallback path `fallback_decode` was
invoked. -/
structure TieredOutcome where
  results : List QRCodeResult
  fallbackUsed : Bool
deriving DecidableEq, Repr

/-- Model of `QRDecoder::decode_qr_codes` (`qr_decoder.rs` lines 58-128).
`hasWechat` models whether the WeChat decoder was successfully created in
`QRDecoder::new`; `raw` is the WeChat detector outcome fed to
`wechat_decode_qr_codes`; `fallbackResults` is the (never-failing) result
list of `fallback_decode`, i.e. of the OpenCV multi/single cascade.
The WeChat branch is taken when present: a non-empty WeChat result list is
accepted, an empty list or a WeChat error falls back to the generic
decoder.  The collected results are then filtered once more by
`confidence >= min_confidence`. -/
def qrdecoder_decode_qr_codes (cfg : ProcessingConfig) (hasWechat : Bool)
    (raw : Except String (List RawDet)) (imgWidth imgHeight : ℤ)
    (fallbackResults : List QRCodeResult) : TieredOutcome :=
  let step :=
    if hasWechat then
      match wechat_decode_qr_codes cfg raw imgWidth imgHeight with
      | .ok wechatResults =>
        if wechatResults.isEmpty then (fallbackResults, true)
        else (wechatResults, false)
      | .error _ => (fallbackResults, true)
    else (fallbackResults, true)
  { results := step.1.filter fun r => cfg.min_confidence ≤ r.confidence
    fallbackUsed := step.2 }

/-! ## Batch coordinator (`src/batch_processor.rs`) and drivers
(`src/main.rs`) -/

/-- Model of `BatchConfig` from `batch_processor.rs`, restricted to the fields the
batch control flow reads (paths and display options omitted). -/
structure BatchConfig where
  recursive : Bool
  supported_formats : List String
  expected_count : ℕ
  randomize : Bool
  verbose : Bool
  quiet : Bool
deriving DecidableEq, Repr

/-- Source `impl Default for BatchConfig` (`batch_processor.rs` lines 33-55). -/
def BatchConfig.default : BatchConfig :=
  { recursive := false
    supported_formats := ["png", "jpg", "jpeg", "bmp", "tiff", "webp"]
    expected_count := 1
    randomize := false
    verbose := false
    quiet := false }

/-- ASCII lower-casing of one character, as `u8::eq_ignore_ascii_case`
folds case. -/
def asciiLower (c : Char) : Char :=
  if 'A' ≤ c ∧ c ≤ 'Z' then Char.ofNat (c.toNat + 32) else c

/-- Model of `str::eq_ignore_ascii_case`, used by `is_supported_image` to compare
extensions against the configured format list. -/
def eq_ignore_ascii_case (a b : String) : Bool :=
  a.toList.map asciiLower == b.toList.map asciiLower

/-- One directory entry of the batch directory: whether the entry is a
regular file, its filename, and its extension (`Path::extension`,
`None` when the name has no extension). -/
structure DirEntry where
  isFile : Bool
  name : String
  ext : Option String
deriving DecidableEq, Repr

/-- Model of `BatchProcessor::is_supported_image` (`batch_processor.rs` lines
197-206): the extension, when present, must match one of
`config.supported_formats` case-insensitively. -/
def is_supported_image (cfg : BatchConfig) (entry : DirEntry) : Bool :=
  match entry.ext with
  | some ext => cfg.supported_formats.any fun fmt => eq_ignore_ascii_case fmt ext
  | none => false

/-- Model of `BatchProcessor::collect_image_files` /
`collect_files_recursive` (`batch_processor.rs` lines 161-194) for a flat
(non-recursive) directory listing: regular files with a supported
extension are kept in directory order; subdirectory entries are skipped
because `config.recursive` is false in the modelled (non-recursive)
traversal. -/
def collect_image_files (cfg : BatchConfig) (entries : List DirEntry) :
    List DirEntry :=
  entries.filter fun e => e.isFile && is_supported_image cfg e

/-- Model of `BatchResult` from `batch_processor.rs` (`processing_time` is the
measured wall-clock duration; it is an oracle value here). -/
structure BatchResult where
  file_path : String
  results : List QrResult
  processing_time : ℕ
  success : Bool
  error : Option String
deriving DecidableEq, Repr

/-- The statistics fields of `BatchStats` that `process_batch` updates
(`start_time` is wall-clock and not modelled). -/
structure BatchStats where
  total_files : ℕ
  processed_files : ℕ
  successful_files : ℕ
  failed_files : ℕ
  total_qr_codes : ℕ
  total_processing_time : ℕ
deriving DecidableEq, Repr

/-- Source `BatchStats::new` / `Default`: all counters zero. -/
def BatchStats.new : BatchStats := ⟨0, 0, 0, 0, 0, 0⟩

/-- Model of `BatchProcessor::process_file` (`batch_processor.rs` lines 209-238).
`decode` is the outcome of `BruteForceDecoder::decode_with_brute_force`
for this file (including image-loading failures as `.error`), `time` the
measured duration.  An `Ok` outcome is a success exactly when the result
list is non-empty; an `Err` outcome is recorded in the `error` field with
`success := false` — the error is caught here, never propagated. -/
def batch_process_file (decode : Except String (List QrResult))
    (time : ℕ) (path : String) : BatchResult :=
  match decode with
  | .ok results =>
    { file_path := path
      results := results
      processing_time := time
      success := !results.isEmpty
      error := none }
  | .error e =>
    { file_path := path
      results := []
      processing_time := time
      success := false
      error := some e }

/-- One iteration of the `process_batch` loop (`batch_processor.rs` lines
251-298): process the file, then update the statistics — `processed_files`
and `total_processing_time` unconditionally, then the success or failure
counters. -/
def batch_step (stats : BatchStats) (result : BatchResult) : BatchStats :=
  let stats := { stats with
    processed_files := stats.processed_files + 1
    total_processing_time := stats.total_processing_time + result.processing_time }
  if result.success then
    { stats with
      successful_files := stats.successful_files + 1
      total_qr_codes := stats.total_qr_codes + result.results.length }
  else
    { stats with failed_files := stats.failed_files + 1 }

/-- The loop of `BatchProcessor::process_batch` over the collected files:
a left fold accumulating the statistics and the per-file results (the
progress callback and console printing have no effect on either). -/
def batch_loop (dec : String → Except String (List QrResult))
    (time : String → ℕ) (files : List DirEntry)
    (stats : BatchStats) (acc : List BatchResult) :
    BatchStats × List BatchResult :=
  match files with
  | [] => (stats, acc)
  | f :: rest =>
    let result := batch_process_file (dec f.name) (time f.name) f.name
    batch_loop dec time rest (batch_step stats result) (acc ++ [result])

/-- Model of `BatchProcessor::process_batch` (`batch_processor.rs` lines 241-301):
collect the supported image files, set `total_files` to their count, then
fold the per-file processing over them.  `dec` and `time` are the decode
outcome and measured duration per file path. -/
def process_batch (cfg : BatchConfig) (entries : List DirEntry)
    (dec : String → Except String (List QrResult)) (time : String → ℕ) :
    BatchStats × List BatchResult :=
  let files := collect_image_files cfg entries
  batch_loop dec time files { BatchStats.new with total_files := files.length } []

/-- Which search strategies a driver ran for one input, and the final
result list it kept. -/
structure DriverTrace (α : Type) where
  enhancedRan : Bool
  bruteRan : Bool
  results : List α
deriving DecidableEq, Repr

/-- The strategy-selection logic of the single-file driver
`process_image` (`main.rs` lines 170-185): the enhanced search always
runs; the brute-force decoder runs exactly when the enhanced search
returned an empty list and `config.brute_force` is set, and its results
replace the (empty) enhanced results in that case.  `enhancedResults` and
`bruteResults` are the outcomes of the two strategy invocations on the
processed image. -/
def process_image_strategy (cfg : ProcessingConfig)
    (enhancedResults bruteResults : List QRCodeResult) :
    DriverTrace QRCodeResult :=
  { enhancedRan := true
    bruteRan := enhancedResults.isEmpty && cfg.brute_force
    results :=
      if enhancedResults.isEmpty && cfg.brute_force then bruteResults
      else enhancedResults }

/-- The strategy selection of the batch coordinator's per-file processing
(`BatchProcessor::process_file`, `batch_processor.rs` lines 209-238): it
invokes `self.decoder.decode_with_brute_force` directly for every file —
the enhanced search strategy is never constructed or run on the batch
path, and no configuration flag gates the brute-force decoder there. -/
def batch_file_strategy (cfg : BatchConfig)
    (decode : Except String (List QrResult)) (time : ℕ) (path : String) :
    DriverTrace QrResult :=
  let _ := cfg
  { enhancedRan := false
    bruteRan := true
    results := (batch_process_file decode time path).results }

/-! ## Helper lemmas -/

/-- Length of a `flatMap` whose body has constant length. -/
theorem length_flatMap_const {α β : Type} (l : List α) (f : α → List β) (c : ℕ)
    (h : ∀ a, (f a).length = c) : (l.flatMap f).length = l.length * c := by
  induction l with
  | nil => simp
  | cons a t ih => simp [h, ih, Nat.succ_mul, Nat.add_comm]

/-- The default brute-force grid has 6·1·3·8·15·2 = 4320 entries. -/
theorem generate_param_combinations_length :
    generate_param_combinations.length = 4320 := by
  unfold generate_param_combinations
  rw [length_flatMap_const _ _ 720]
  · rfl
  · intro s
    rw [length_flatMap_const _ _ 720]
    · rfl
    · intro g
      rw [length_flatMap_const _ _ 240]
      · rfl
      · intro c
        rw [length_flatMap_const _ _ 30]
        · rfl
        · intro b
          rw [length_flatMap_const _ _ 2]
          · rfl
          · intro bl
            simp

/-- C4: with the default parameter sets the brute-force grid has exactly
6×3×8×15×2 = 4320 combinations, and any shuffled order (modelled as any
permutation of the generated list, which is what a uniform shuffle
produces) has the same length and exactly the same set of combinations as
the non-randomized run. -/
theorem c4_grid_count_and_shuffle_set :
    generate_param_combinations.length = 4320 ∧
    ∀ shuffled : List TransformParams,
      shuffled.Perm generate_param_combinations →
      shuffled.length = 4320 ∧
      ∀ p : TransformParams, p ∈ shuffled ↔ p ∈ generate_param_combinations := by
  refine ⟨generate_param_combinations_length, ?_⟩
  intro shuffled hperm
  exact ⟨hperm.length_eq.trans generate_param_combinations_length,
    fun p => hperm.mem_iff⟩

/-- Witness for C4 at the identity permutation and one concrete grid
entry. -/
theorem c4_grid_count_and_shuffle_set_witness :
    generate_param_combinations.length = 4320 ∧
    ((⟨2, -75, -7, 1/5, true, true⟩ : TransformParams) ∈ generate_param_combinations ↔
      (⟨2, -75, -7, 1/5, true, true⟩ : TransformParams) ∈ generate_param_combinations) :=
  ⟨c4_grid_count_and_shuffle_set.1,
    (c4_grid_count_and_shuffle_set.2 generate_param_combinations
      (List.Perm.refl _)).2 _⟩

/-- C10: every combination the brute-force grid generates has
`grayscale = true` (the grayscale loop iterates over the fixed singleton
`[true]`), so every brute-force attempt converts to grayscale before the
optional binarization. -/
theorem c10_grayscale_always_true :
    ∀ p ∈ generate_param_combinations, p.grayscale = true := by
  intro p hp
  simp only [generate_param_combinations, List.mem_flatMap, List.mem_map,
    List.mem_cons, List.mem_singleton] at hp
  obtain ⟨s, -, g, hg, c, -, b, -, bl, -, bin, -, rfl⟩ := hp
  rcases hg with rfl | h
  · rfl
  · cases h

/-- Witness for C10 at one concrete generated combination. -/
theorem c10_grayscale_always_true_witness :
    (⟨2, -75, -7, 1/5, true, true⟩ : TransformParams).grayscale = true := by
  refine c10_grayscale_always_true _ ?_
  unfold generate_param_combinations
  refine List.mem_flatMap.mpr ⟨1/5, by simp [bf_scale_options], ?_⟩
  refine List.mem_flatMap.mpr ⟨true, by simp, ?_⟩
  refine List.mem_flatMap.mpr ⟨2, by simp [bf_contrast_options], ?_⟩
  refine List.mem_flatMap.mpr ⟨-75, by simp [bf_brightness_options], ?_⟩
  refine List.mem_flatMap.mpr ⟨-7, by simp [bf_blur_options], ?_⟩
  exact List.mem_map.mpr ⟨true, by simp, rfl⟩

/-- C6: `is_duplicate` reports a candidate as a duplicate exactly when
some existing result's bounding-box top-left origin is within Euclidean
distance 50 of the candidate's (squared form `dx² + dy² < 50²`); in
particular a candidate at origin (105,103) against an existing result at
(100,100) is a duplicate, while a candidate at (300,300) against results
around (100,100) is not. -/
theorem c6_is_duplicate_origin_distance :
    (∀ (cfg : BruteForceConfig) (nr : QRCodeResult) (ex : List QRCodeResult),
      is_duplicate cfg nr ex = true ↔
        ∃ e ∈ ex,
          (nr.position.x - e.position.x) * (nr.position.x - e.position.x) +
            (nr.position.y - e.position.y) * (nr.position.y - e.position.y) < 2500) ∧
    is_duplicate BruteForceConfig.default
      ⟨"c", QRPosition.new 105 103 20 20, 1, "QR_CODE"⟩
      [⟨"e", QRPosition.new 100 100 20 20, 1, "QR_CODE"⟩] = true ∧
    is_duplicate BruteForceConfig.default
      ⟨"c", QRPosition.new 300 300 20 20, 1, "QR_CODE"⟩
      [⟨"e", QRPosition.new 100 100 20 20, 1, "QR_CODE"⟩,
       ⟨"f", QRPosition.new 105 103 20 20, 1, "QR_CODE"⟩] = false := by
  refine ⟨?_, by decide, by decide⟩
  intro cfg nr ex
  simp [is_duplicate, List.any_eq_true]

/-- C9: the duplicate decision never reads the configured
`duplicate_threshold` (default 10.0) — `is_duplicate` compares against the
hard-coded constant 50.0, so two decoders whose configurations differ only
in `duplicate_threshold` decide identically on all inputs. -/
theorem c9_duplicate_threshold_independent :
    BruteForceConfig.default.duplicate_threshold = 10 ∧
    ∀ (co : List ℚ) (bo blo : List ℤ) (so : List ℚ) (ta tb : ℚ) (r : Bool)
      (nr : QRCodeResult) (ex : List QRCodeResult),
      is_duplicate ⟨co, bo, blo, so, ta, r⟩ nr ex =
        is_duplicate ⟨co, bo, blo, so, tb, r⟩ nr ex :=
  ⟨rfl, fun _ _ _ _ _ _ _ _ _ => rfl⟩

/-- C7: every confidence the estimators produce lies in [0,1]: the generic
single-detection estimator (base 0.5), the generic multi-detection
estimator over corners (base 0.5), and the WeChat estimator (base 0.8),
for all inputs including corner lists with fewer than 4 points and empty
straightened images. -/
theorem c7_confidence_bounds :
    (∀ (points : List (ℚ × ℚ)) (straight : StraightQR),
      0 ≤ calculate_confidence points straight ∧
        calculate_confidence points straight ≤ 1) ∧
    (∀ (corners : List (ℚ × ℚ)) (straight : StraightQR),
      0 ≤ calculate_confidence_from_corners corners straight ∧
        calculate_confidence_from_corners corners straight ≤ 1) ∧
    (∀ (corners : List (ℚ × ℚ)) (w h : ℤ),
      0 ≤ wechat_calculate_confidence corners w h ∧
        wechat_calculate_confidence corners w h ≤ 1) := by
  refine ⟨?_, ?_, ?_⟩
  · intro points straight
    unfold calculate_confidence
    split_ifs <;>
      exact ⟨le_min (by norm_num) (by norm_num), min_le_right _ _⟩
  · intro corners straight
    unfold calculate_confidence_from_corners
    split_ifs <;>
      exact ⟨le_min (by norm_num) (by norm_num), min_le_right _ _⟩
  · intro corners w h
    unfold wechat_calculate_confidence
    dsimp only
    split_ifs <;>
      exact ⟨le_min (by norm_num) (by norm_num), min_le_right _ _⟩

/-- C5 counterexample: the brute-force transform engine does not coerce an
even blur kernel to the next odd value — for `blur = 2` the trace contains
a Gaussian blur with the even kernel size 2 (and no kernel-3 blur), so the
claim that an even-valued kernel is coerced to the next odd value before
the blur is applied fails on `BruteForceDecoder::apply_transform`. -/
theorem c5_even_kernel_not_coerced_counterexample :
    ImgOp.gaussianBlur 2 ∈
        apply_transform ⟨1, 0, 2, 1, true, false⟩ false ∧
    ImgOp.gaussianBlur 3 ∉
        apply_transform ⟨1, 0, 2, 1, true, false⟩ false ∧
    (2 : ℤ) % 2 = 0 := by
  refine ⟨?_, ?_, rfl⟩ <;> decide

/-- C5 amended: the brute-force transform applies its operations in the
fixed order scale → brightness/contrast → blur → grayscale →
binarize(Otsu) → invert (strictly increasing pipeline rank); a scale of
1.0 is a no-op; the blur runs exactly when `|blur| > 1` (so 0 — and also
±1 — is a no-op) with kernel size `|blur|` passed to OpenCV unchanged, no
even-to-odd coercion; the even-to-odd kernel coercion exists only in the
enhanced processor's Gaussian-blur helper. -/
theorem c5_transform_order_amended :
    (∀ (p : TransformParams) (inv : Bool),
      List.Pairwise (· < ·) ((apply_transform p inv).map ImgOp.rank)) ∧
    (∀ (p : TransformParams) (inv : Bool) (s : ℚ),
      ImgOp.resize s ∈ apply_transform p inv ↔ p.scale ≠ 1 ∧ s = p.scale) ∧
    (∀ (p : TransformParams) (inv : Bool) (k : ℤ),
      ImgOp.gaussianBlur k ∈ apply_transform p inv ↔
        1 < p.blur.natAbs ∧ k = (p.blur.natAbs : ℤ)) ∧
    (∀ k : ℤ, enhanced_blur_kernel (2 * k) = 2 * k + 1) := by
  refine ⟨?_, ?_, ?_, ?_⟩
  · intro p inv
    unfold apply_transform
    split_ifs <;> simp [ImgOp.rank, List.pairwise_cons]
  · intro p inv s
    unfold apply_transform
    split_ifs with h1 h2 h3 h4 h5 <;> simp_all
  · intro p inv k
    unfold apply_transform
    split_ifs with h1 h2 h3 h4 h5 <;> simp_all <;> omega
  · intro k
    unfold enhanced_blur_kernel
    rw [if_pos (by omega)]

/-- Running `decode_loop` on a list with no hit: returns an empty result without
error, after attempting every transform. -/
theorem decode_loop_all_miss (f : TransformType → DecodeAttempt) :
    ∀ l : List TransformType, (∀ t ∈ l, (f t).isHit = false) →
      decode_loop f l = ([], l) := by
  intro l
  induction l with
  | nil => intro _; rfl
  | cons t rest ih =>
    intro h
    have ht := h t (List.mem_cons_self t rest)
    have hrest := ih fun u hu => h u (List.mem_cons_of_mem t hu)
    cases hf : f t with
    | ok results =>
      have : results.isEmpty = true := by
        have := ht
        rw [hf] at this
        simpa [DecodeAttempt.isHit] using this
      simp [decode_loop, hf, this, hrest]
    | transformErr => simp [decode_loop, hf, hrest]
    | decodeErr => simp [decode_loop, hf, hrest]

/-- Running `decode_loop` when the transforms before `t` all miss and `t` decodes
to a non-empty list: returns that list immediately, having attempted
exactly the prefix up to and including `t`. -/
theorem decode_loop_first_hit (f : TransformType → DecodeAttempt) :
    ∀ (pre : List TransformType) (t : TransformType) (post : List TransformType)
      (results : List QRCodeResult),
      (∀ u ∈ pre, (f u).isHit = false) →
      f t = .ok results → results ≠ [] →
      decode_loop f (pre ++ t :: post) = (results, pre ++ [t]) := by
  intro pre
  induction pre with
  | nil =>
    intro t post results _ hft hne
    have : results.isEmpty = false := by simpa using hne
    simp [decode_loop, hft, this]
  | cons u rest ih =>
    intro t post results hpre hft hne
    have hu := hpre u (List.mem_cons_self u rest)
    have hrest := ih t post results (fun v hv => hpre v (List.mem_cons_of_mem u hv)) hft hne
    cases hf : f u with
    | ok rs =>
      have : rs.isEmpty = true := by
        have := hu
        rw [hf] at this
        simpa [DecodeAttempt.isHit] using this
      simp [decode_loop, hf, this, hrest]
    | transformErr => simp [decode_loop, hf, hrest]
    | decodeErr => simp [decode_loop, hf, hrest]

/-- C3: `decode_with_transforms` iterates the fixed transform list in
order and returns at the first transform whose decode is a non-empty
result list — the attempted-transform trace is exactly the prefix up to
and including the hit, so no later transform is applied and the decoder is
not invoked again; and if every transform misses (fails or decodes to an
empty list), it returns an empty result list without error, having
attempted the whole sequence. -/
theorem c3_enhanced_first_hit :
    (∀ (f : TransformType → DecodeAttempt) (pre : List TransformType)
        (t : TransformType) (post : List TransformType)
        (results : List QRCodeResult),
      get_transform_sequence = pre ++ t :: post →
      (∀ u ∈ pre, (f u).isHit = false) →
      f t = .ok results → results ≠ [] →
      decode_with_transforms f = (results, pre ++ [t])) ∧
    (∀ f : TransformType → DecodeAttempt,
      (∀ t ∈ get_transform_sequence, (f t).isHit = false) →
      decode_with_transforms f = ([], get_transform_sequence)) := by
  constructor
  · intro f pre t post results hseq hpre hft hne
    rw [decode_with_transforms, hseq]
    exact decode_loop_first_hit f pre t post results hpre hft hne
  · intro f h
    exact decode_loop_all_miss f get_transform_sequence h

/-- Witness for C3: an oracle that hits on the very first transform
(`Original`) stops there; an oracle that always decodes to an empty list
attempts all 36 transforms and returns an empty result. -/
theorem c3_enhanced_first_hit_witness :
    decode_with_transforms
        (fun _ => .ok [⟨"HELLO", QRPosition.new 0 0 1 1, 1, "QR_CODE"⟩]) =
      ([⟨"HELLO", QRPosition.new 0 0 1 1, 1, "QR_CODE"⟩],
        [TransformType.original]) ∧
    decode_with_transforms (fun _ => .ok []) = ([], get_transform_sequence) := by
  constructor
  · exact c3_enhanced_first_hit.1 _ [] TransformType.original
      get_transform_sequence.tail _ rfl (by simp) rfl (by simp)
  · exact c3_enhanced_first_hit.2 _ (fun t _ => rfl)

/-- Lemma: `batch_step` always preserves `total_files` and increments
`processed_files` by exactly one, whether the file succeeded or failed. -/
theorem batch_step_counts (stats : BatchStats) (result : BatchResult) :
    (batch_step stats result).total_files = stats.total_files ∧
    (batch_step stats result).processed_files = stats.processed_files + 1 := by
  unfold batch_step
  split <;> exact ⟨rfl, rfl⟩

/-- The batch loop: `total_files` is untouched, `processed_files` grows by
the number of files, and one `BatchResult` is appended per file in
order. -/
theorem batch_loop_spec (dec : String → Except String (List QrResult))
    (time : String → ℕ) :
    ∀ (files : List DirEntry) (stats : BatchStats) (acc : List BatchResult),
      (batch_loop dec time files stats acc).1.total_files = stats.total_files ∧
      (batch_loop dec time files stats acc).1.processed_files =
        stats.processed_files + files.length ∧
      (batch_loop dec time files stats acc).2 =
        acc ++ files.map (fun e => batch_process_file (dec e.name) (time e.name) e.name) := by
  intro files
  induction files with
  | nil => intro stats acc; simp [batch_loop]
  | cons f rest ih =>
    intro stats acc
    have hstep := batch_step_counts stats
      (batch_process_file (dec f.name) (time f.name) f.name)
    have hrest := ih (batch_step stats (batch_process_file (dec f.name) (time f.name) f.name))
      (acc ++ [batch_process_file (dec f.name) (time f.name) f.name])
    refine ⟨?_, ?_, ?_⟩
    · rw [batch_loop]
      rw [hrest.1, hstep.1]
    · rw [batch_loop]
      rw [hrest.2.1, hstep.2]
      simp [Nat.add_assoc, Nat.add_comm 1]
    · rw [batch_loop]
      rw [hrest.2.2]
      simp

/-- C8: for any directory listing, exactly the supported-format regular
files are attempted (one `BatchResult` per collected file, in order, so a
failing file never aborts the rest); `total_files` equals their count and
`processed_files` ends at the same count, having grown by one per
attempted file; a decode error is recorded in that file's result
(`success = false`, `error = Some e`) rather than propagated. -/
theorem c8_batch_counts :
    ∀ (cfg : BatchConfig) (entries : List DirEntry)
      (dec : String → Except String (List QrResult)) (time : String → ℕ),
      (process_batch cfg entries dec time).1.total_files =
        (collect_image_files cfg entries).length ∧
      (process_batch cfg entries dec time).1.processed_files =
        (collect_image_files cfg entries).length ∧
      (process_batch cfg entries dec time).2 =
        (collect_image_files cfg entries).map
          (fun e => batch_process_file (dec e.name) (time e.name) e.name) ∧
      (∀ (d : Except String (List QrResult)) (t : ℕ) (p : String),
        (batch_process_file d t p).error =
          (match d with | .ok _ => none | .error e => some e) ∧
        (batch_process_file d t p).success =
          (match d with | .ok rs => !rs.isEmpty | .error _ => false)) := by
  intro cfg entries dec time
  have h := batch_loop_spec dec time (collect_image_files cfg entries)
    { BatchStats.new with total_files := (collect_image_files cfg entries).length } []
  refine ⟨?_, ?_, ?_, ?_⟩
  · exact h.1
  · simpa [BatchStats.new] using h.2.1
  · simpa using h.2.2
  · intro d t p
    cases d <;> exact ⟨rfl, rfl⟩

set_option maxRecDepth 10000 in
/-- C1 counterexample: with `min_confidence = 0.95`, a WeChat detection
with four corners, tiny area and a small image scores confidence 0.9,
is filtered out inside the WeChat backend, and the resulting empty list
triggers the generic fallback — even though the raw WeChat result set is
non-empty and the backend did not error.  So a low-confidence WeChat hit
does cause fallback to the generic backend, contradicting the claim. -/
theorem c1_filter_inside_backend_counterexample :
    (qrdecoder_decode_qr_codes
        { ProcessingConfig.default with min_confidence := 19/20 } true
        (.ok [⟨"A", [(0, 0), (1, 0), (1, 1), (0, 1)]⟩]) 100 100 []).fallbackUsed
      = true ∧
    (Except.ok [(⟨"A", [(0, 0), (1, 0), (1, 1), (0, 1)]⟩ : RawDet)] :
        Except String (List RawDet)) ≠ .ok [] ∧
    (Except.ok [(⟨"A", [(0, 0), (1, 0), (1, 1), (0, 1)]⟩ : RawDet)] :
        Except String (List RawDet)).isOk = true := by
  refine ⟨?_, by simp, rfl⟩
  with_unfolding_all rfl

/-- C1 amended: in the tiered cascade the generic fallback is invoked
exactly when the WeChat backend errors or when its *confidence-filtered*
result list is empty — the `min_confidence` filter runs inside the WeChat
backend before the cascade decision, so WeChat detections that fall below
`min_confidence` (not only an empty raw result or a backend error) trigger
fallback to the generic backend. -/
theorem c1_fallback_trigger_amended :
    ∀ (cfg : ProcessingConfig) (raw : Except String (List RawDet))
      (w h : ℤ) (fallbackResults : List QRCodeResult),
      (qrdecoder_decode_qr_codes cfg true raw w h fallbackResults).fallbackUsed = true ↔
        (wechat_decode_qr_codes cfg raw w h = .ok [] ∨
          ∃ e, wechat_decode_qr_codes cfg raw w h = .error e) := by
  intro cfg raw w h fallbackResults
  unfold qrdecoder_decode_qr_codes
  cases hw : wechat_decode_qr_codes cfg raw w h with
  | ok rs =>
    cases rs with
    | nil => simp
    | cons a l => simp
  | error e => simp

/-- C2 counterexample: the batch coordinator's per-file processing invokes
the brute-force decoder directly — for a concrete file the enhanced
strategy did not run while the brute-force decoder did, contradicting the
claim that every processed file runs the enhanced strategy first and brute
force only on an empty enhanced result with brute force enabled. -/
theorem c2_batch_skips_enhanced_counterexample :
    (batch_file_strategy BatchConfig.default (.ok []) 0 "a.png").enhancedRan = false ∧
    (batch_file_strategy BatchConfig.default (.ok []) 0 "a.png").bruteRan = true :=
  ⟨rfl, rfl⟩

/-- C2 amended: the single-file driver always runs the enhanced search and
runs the brute-force decoder exactly when the enhanced result list is
empty and `brute_force` is enabled (keeping the brute-force results in
that case, the enhanced results otherwise); the batch coordinator instead
hands every file directly to the brute-force decoder and never runs the
enhanced strategy. -/
theorem c2_strategy_order_amended :
    (∀ (cfg : ProcessingConfig) (enh brute : List QRCodeResult),
      (process_image_strategy cfg enh brute).enhancedRan = true ∧
      (process_image_strategy cfg enh brute).bruteRan =
        (enh.isEmpty && cfg.brute_force) ∧
      (process_image_strategy cfg enh brute).results =
        (if enh.isEmpty && cfg.brute_force then brute else enh)) ∧
    (∀ (bcfg : BatchConfig) (d : Except String (List QrResult)) (t : ℕ) (p : String),
      (batch_file_strategy bcfg d t p).enhancedRan = false ∧
      (batch_file_strategy bcfg d t p).bruteRan = true) :=
  ⟨fun _ _ _ => ⟨rfl, rfl, rfl⟩, fun _ _ _ _ => ⟨rfl, rfl⟩⟩
